import Mathlib

/-!
Verification of `src/server.py` (AquaNova game dev server).

The development shallowly embeds the launcher (`__main__` block), the
request-handler overrides (`end_headers`, `guess_type`), the
`GameServer.start` / `GameServer.stop` lifecycle, and the path
resolution the handler inherits from the Python standard library's
`http.server.SimpleHTTPRequestHandler` (the latter is not part of this
repository's sources, so it is modelled from the spec's description of
the inherited behaviour together with the documented algorithm of that
base class).

Strings are manipulated as `List Char` where proofs need structure;
`String` wrappers sit at the boundary.
-/

namespace Server

/-! ## Python `int()` on strings

Embeds the behaviour of Python's built-in `int(s)` (base 10) as used at
`src/server.py` lines 90 and 94: optional surrounding whitespace, an
optional single sign, then a nonempty run of ASCII digits in which a
single underscore may stand between two digits.  `none` corresponds to
`int` raising `ValueError`. -/

/-- Digit run with single underscores allowed between digits.
`acc` is the numeric value accumulated so far. -/
def pyDigitsAux : List Char → Nat → Option Nat
  | [], acc => some acc
  | '_' :: c :: rest, acc =>
      if c.isDigit then pyDigitsAux rest (acc * 10 + (c.toNat - 48)) else none
  | ['_'], _ => none
  | c :: rest, acc =>
      if c.isDigit then pyDigitsAux rest (acc * 10 + (c.toNat - 48)) else none

/-- A nonempty digit run (first char must be a digit, no leading underscore). -/
def pyNatOf : List Char → Option Nat
  | [] => none
  | c :: rest =>
      if c.isDigit then pyDigitsAux rest (c.toNat - 48) else none

/-- Strip leading and trailing whitespace. -/
def stripWS (cs : List Char) : List Char :=
  ((cs.dropWhile Char.isWhitespace).reverse.dropWhile Char.isWhitespace).reverse

/-- Python `int(s)`: `some n` when `s` parses, `none` when `int` raises
`ValueError`. -/
def pyInt (s : String) : Option Int :=
  match stripWS s.data with
  | '+' :: rest => (pyNatOf rest).map Int.ofNat
  | '-' :: rest => (pyNatOf rest).map (fun n => -(n : Int))
  | rest => (pyNatOf rest).map Int.ofNat

/-! ## Launcher argument parsing (`src/server.py` lines 83 to 94)

`args` is `sys.argv[1:]`; `cwd` is `os.getcwd()` at invocation time.
The defaults are `PORT = 8000` and `GAME_DIR = os.getcwd()`.  If the
first argument parses as an integer it is the port; otherwise it is the
directory, and a second argument, when present, must parse as the port
or the uncaught `ValueError` aborts the process. -/

/-- The Python exceptions relevant to this program.  `directoryError`
stands for the `FileNotFoundError` raised by `os.chdir` on a missing
directory (the spec's `DirectoryError`); `bindError` for the `OSError`
raised by `socketserver.TCPServer` when the port is in use or not
permitted (the spec's `BindError`). -/
inductive PyExc
  | systemExit (code : Int)
  | keyboardInterrupt
  | valueError
  | directoryError
  | bindError
  deriving DecidableEq, Repr

/-- The launcher's resolved configuration (the spec's `ServerConfig`). -/
structure Config where
  port : Int
  directory : String
  deriving DecidableEq, Repr

/-- Lines 83 to 94 of `src/server.py`: defaults plus positional-argument
disambiguation.  An `Except.error` is the uncaught `ValueError` from
`int(sys.argv[2])`. -/
def parseArgs (cwd : String) (args : List String) : Except PyExc Config :=
  match args with
  | [] => Except.ok ⟨8000, cwd⟩
  | a1 :: rest =>
      match pyInt a1 with
      | some p => Except.ok ⟨p, cwd⟩
      | none =>
          match rest with
          | [] => Except.ok ⟨8000, a1⟩
          | a2 :: _ =>
              match pyInt a2 with
              | some p => Except.ok ⟨p, a1⟩
              | none => Except.error PyExc.valueError

/-! ## Response headers (`src/server.py` lines 11 to 16)

A response's header block is a list of name/value pairs.  `send_header`
appends one header; the overridden `end_headers` appends the three CORS
headers and then hands off to the base implementation, which terminates
the block. -/

/-- `BaseHTTPRequestHandler.send_header`: append one header to the block. -/
def send_header (hs : List (String × String)) (k v : String) :
    List (String × String) :=
  hs ++ [(k, v)]

/-- `GameHTTPRequestHandler.end_headers` (lines 11 to 16): the three CORS
headers are appended to whatever the base handler accumulated, then the
block is terminated. -/
def end_headers (hs : List (String × String)) : List (String × String) :=
  send_header
    (send_header
      (send_header hs "Access-Control-Allow-Origin" "*")
      "Access-Control-Allow-Methods" "GET, POST, OPTIONS")
    "Access-Control-Allow-Headers" "*"

/-- The final header block of a response: `base` abstracts the headers the
base protocol implementation accumulates for a given request path and
status code; every response's block is terminated through the overridden
`end_headers`. -/
def responseHeaders (base : String → Nat → List (String × String))
    (path : String) (status : Nat) : List (String × String) :=
  end_headers (base path status)

/-! ## Character-list helpers for Python `str.endswith` -/

/-- Boolean list-prefix test on characters. -/
def isPrefixL : List Char → List Char → Bool
  | [], _ => true
  | _ :: _, [] => false
  | a :: as, b :: bs => a == b && isPrefixL as bs

/-- Python `s.endswith(pat)`. -/
def endswith (s pat : String) : Bool :=
  isPrefixL pat.data.reverse s.data.reverse

/-! ## MIME type resolution (`src/server.py` lines 18 to 27) -/

/-- Modelled from the spec: the platform's standard MIME guess performed by
the inherited `SimpleHTTPRequestHandler.guess_type`, which is not part of
this repository's sources; per the spec it uses the platform's extension
table, "falling back to `application/octet-stream` if unknown".
`mimeTable` abstracts the platform table. -/
def base_guess_type (mimeTable : String → Option String) (path : String) :
    String :=
  match mimeTable path with
  | some t => t
  | none => "application/octet-stream"

/-- `GameHTTPRequestHandler.guess_type` (lines 18 to 27): compute the base
guess, then override for `.js`, `.css` and `.html`. -/
def guess_type (mimeTable : String → Option String) (path : String) : String :=
  let mimetype := base_guess_type mimeTable path
  if endswith path ".js" then "application/javascript"
  else if endswith path ".css" then "text/css"
  else if endswith path ".html" then "text/html"
  else mimetype

/-! ## Browser launch chain (`src/server.py` lines 48 to 61) -/

/-- Outcome of one `subprocess.run(..., check=False, capture_output=True)`
invocation: either the call itself raised (for instance the `open`
executable does not exist) or the launcher command ran and returned an
exit code.  With `check=False`, a nonzero exit code raises nothing. -/
inductive RunOutcome
  | raised
  | ran (exitCode : Int)
  deriving DecidableEq, Repr

/-- A launch strategy succeeded (actually opened a browser) only when its
launcher command ran and exited with code `0`. -/
def RunOutcome.succeeded : RunOutcome → Bool
  | .ran 0 => true
  | _ => false

/-- The launch strategies, in the order the code tries them. -/
inductive LaunchEv
  | tryChrome
  | tryFirefox
  | tryDefault
  deriving DecidableEq, Repr

/-- Lines 48 to 61: `subprocess.run` aimed at Chrome inside `try`; if that
call raises, `subprocess.run` aimed at Firefox inside a nested `try`; if
that also raises, `webbrowser.open` (which returns a boolean and does not
raise).  Because `check=False` swallows exit codes, a later strategy is
reached only when every earlier invocation raised.  The function returns
the strategies attempted; it is total, so no combination of outcomes
escapes as an exception. -/
def open_browser (chrome firefox : RunOutcome) : List LaunchEv :=
  match chrome with
  | .ran _ => [.tryChrome]
  | .raised =>
      match firefox with
      | .ran _ => [.tryChrome, .tryFirefox]
      | .raised => [.tryChrome, .tryFirefox, .tryDefault]

/-! ## Server lifecycle (`src/server.py` lines 29 to 102) -/

/-- The process environment a run is carried out against: which
directories exist (`os.chdir`), which ports can be bound
(`socketserver.TCPServer`), the outcomes of the two browser-launch
invocations, whether an interrupt signal arrives while `serve_forever`
runs, and the invoking user's home directory. -/
structure Ctx where
  dirExists : String → Bool
  portFree : Int → Bool
  chrome : RunOutcome
  firefox : RunOutcome
  interrupt : Bool
  home : String

/-- Observable process events during startup, in order. -/
inductive Ev
  | chdir (d : String)
  | bind (p : Int)
  | browser (s : LaunchEv)
  | serveLoop
  deriving DecidableEq, Repr

/-- `signal_handler` (lines 75 to 77): prints a message and calls
`sys.exit(0)`, which raises `SystemExit` with code `0`. -/
def signal_handler : PyExc := PyExc.systemExit 0

/-- `GameServer.start` (lines 35 to 66).  `os.chdir(self.directory)` runs
first and raises `directoryError` when the directory does not exist; the
`TCPServer` bind follows and raises `bindError` when the port is not
free; the browser chain runs next; `serve_forever` then blocks.
`handlerExc` is the exception an interrupt delivery turns into: it is
what the registered SIGINT handler raises (`KeyboardInterrupt` when no
handler replaced the default).  Line 65 catches `KeyboardInterrupt` only;
any other exception escapes `start`.  The result is the ordered event
trace plus the exception escaping `start`, if any. -/
def GameServer.start (ctx : Ctx) (handlerExc : PyExc) (port : Int)
    (directory : String) : List Ev × Option PyExc :=
  if ctx.dirExists directory = false then
    ([], some PyExc.directoryError)
  else if ctx.portFree port = false then
    ([Ev.chdir directory], some PyExc.bindError)
  else
    let evs := [Ev.chdir directory, Ev.bind port]
      ++ (open_browser ctx.chrome ctx.firefox).map Ev.browser ++ [Ev.serveLoop]
    if ctx.interrupt = false then (evs, none)
    else
      match handlerExc with
      | PyExc.keyboardInterrupt => (evs, none)
      | e => (evs, some e)

/-- Boolean substring test (Python's `in` operator on strings). -/
def containsL (pat : List Char) : List Char → Bool
  | [] => isPrefixL pat []
  | c :: cs => isPrefixL pat (c :: cs) || containsL pat cs

/-- Python `sub in s` for strings. -/
def pyContains (s sub : String) : Bool :=
  containsL sub.data s.data

/-- Python `os.path.expanduser` restricted to the forms this program can
meet: an initial `~` component is replaced by the invoking user's home
directory; a `~user` form referring to an unknown user is returned
unchanged, which is how it is modelled here. -/
def expanduser (home p : String) : String :=
  if p = "~" then home
  else if isPrefixL ['~', '/'] p.data then home ++ String.mk (p.data.drop 1)
  else p

/-- Lines 96 to 98: expand `~` when the directory string mentions both
`iCloud` and `~`. -/
def resolveDir (home d : String) : String :=
  if pyContains d "iCloud" && pyContains d "~" then expanduser home d else d

/-- Process outcome of a launcher run. -/
inductive Outcome
  | exited (code : Int)
  | servingForever
  deriving DecidableEq, Repr

/-- The `__main__` block (lines 79 to 102): registers `signal_handler` for
the interrupt signal, parses the arguments, expands an iCloud `~` path,
constructs the server and calls `start`.  An exception escaping `start`
(or the uncaught `ValueError` from argument parsing) ends the process:
`SystemExit c` with exit code `c`, any other exception with exit code
`1`.  When `start` returns normally the script ends with exit code `0`,
except that without an interrupt `serve_forever` never returns. -/
def run_main (ctx : Ctx) (cwd : String) (args : List String) :
    List Ev × Outcome :=
  match parseArgs cwd args with
  | Except.error _ => ([], Outcome.exited 1)
  | Except.ok cfg =>
      let dir := resolveDir ctx.home cfg.directory
      match GameServer.start ctx signal_handler cfg.port dir with
      | (evs, some (PyExc.systemExit c)) => (evs, Outcome.exited c)
      | (evs, some _) => (evs, Outcome.exited 1)
      | (evs, none) =>
          (evs, if ctx.interrupt then Outcome.exited 0 else Outcome.servingForever)

/-- The `TCPServer` handle's state, as far as `stop` manipulates it:
whether `shutdown()` has been requested (unblocking the accept loop) and
whether `server_close()` has closed the listening socket. -/
structure Httpd where
  shutdownRequested : Bool
  closed : Bool
  deriving DecidableEq, Repr

/-- A `GameServer` instance: `self.httpd` is `None` from `__init__`
(line 33) until `start` creates the `TCPServer` (line 40). -/
structure GameServerSt where
  port : Int
  directory : String
  httpd : Option Httpd
  deriving DecidableEq, Repr

/-- `GameServer.stop` (lines 68 to 73): when `self.httpd` is set,
`shutdown()` unblocks the `serve_forever` accept loop and
`server_close()` closes the listening socket, releasing its resources
(both are no-ops at the OS level when already done); when `self.httpd`
is `None`, nothing happens at all. -/
def GameServer.stop (s : GameServerSt) : GameServerSt :=
  match s.httpd with
  | none => s
  | some h =>
      { s with httpd := some { h with shutdownRequested := true, closed := true } }

/-! ## Path resolution inherited from `SimpleHTTPRequestHandler`

Modelled from the spec: the mapping of a request path onto the
filesystem is inherited from `http.server.SimpleHTTPRequestHandler`,
which is not part of this repository's sources (`src/server.py` line 10
only subclasses it).  The spec describes the inherited behaviour as
resolving the path against the root directory while "preventing
traversal outside it"; the base class's documented algorithm, modelled
here, is: drop the query and fragment, remember whether the path ends in
a slash, percent-decode, normalize with `posixpath.normpath`, split on
`/`, drop every empty, `.` and `..` component, and join what remains
onto the serving directory.  Percent-decoding is modelled per single
`%XX` escape; multi-byte UTF-8 escape sequences are out of scope. -/

/-- Split a character list on a separator; pieces never contain the
separator. -/
def splitOnChar (sep : Char) : List Char → List (List Char)
  | [] => [[]]
  | c :: cs =>
      let r := splitOnChar sep cs
      if c = sep then [] :: r
      else
        match r with
        | [] => [[c]]
        | p :: ps => (c :: p) :: ps

/-- Value of a hexadecimal digit. -/
def hexVal? (c : Char) : Option Nat :=
  if '0' ≤ c ∧ c ≤ '9' then some (c.toNat - 48)
  else if 'a' ≤ c ∧ c ≤ 'f' then some (c.toNat - 87)
  else if 'A' ≤ c ∧ c ≤ 'F' then some (c.toNat - 55)
  else none

/-- `urllib.parse.unquote` on single-byte escapes: each `%XX` with two
hexadecimal digits becomes the character with that code; anything else
is copied through. -/
def unquote : List Char → List Char
  | [] => []
  | '%' :: a :: b :: rest =>
      match hexVal? a, hexVal? b with
      | some x, some y => Char.ofNat (16 * x + y) :: unquote rest
      | _, _ => '%' :: unquote (a :: b :: rest)
  | c :: rest => c :: unquote rest

/-- Python `str.rstrip()`: drop trailing whitespace. -/
def rstripL (cs : List Char) : List Char :=
  (cs.reverse.dropWhile Char.isWhitespace).reverse

/-- The component loop of `posixpath.normpath`: `acc` is `new_comps`.  An
empty or `.` component is dropped; `..` pops the accumulator except at
an absolute root (dropped) or when the path is relative and nothing can
be popped (kept). -/
def normCompsAux (isAbs : Bool) : List (List Char) → List (List Char) →
    List (List Char)
  | acc, [] => acc
  | acc, comp :: rest =>
      if comp = [] ∨ comp = ['.'] then normCompsAux isAbs acc rest
      else if comp ≠ ['.', '.'] ∨ (isAbs = false ∧ acc = []) ∨
          acc.getLast? = some ['.', '.'] then
        normCompsAux isAbs (acc ++ [comp]) rest
      else if acc ≠ [] then normCompsAux isAbs acc.dropLast rest
      else normCompsAux isAbs acc rest

/-- `posixpath.normpath` on character lists. -/
def normpath (p : List Char) : List Char :=
  if p = [] then ['.']
  else
    let isAbs := isPrefixL ['/'] p
    let twoSlashes := isPrefixL ['/', '/'] p && !isPrefixL ['/', '/', '/'] p
    let newComps := normCompsAux isAbs [] (splitOnChar '/' p)
    let joined := List.intercalate ['/'] newComps
    let out :=
      if isAbs then
        (if twoSlashes then '/' :: '/' :: joined else '/' :: joined)
      else joined
    if out = [] then ['.'] else out

/-- `posixpath.join` of one further component. -/
def posixJoinL (a w : List Char) : List Char :=
  if isPrefixL ['/'] w then w
  else if a.isEmpty || (a.getLast? == some '/') then a ++ w
  else a ++ '/' :: w

/-- A plain child component: nonempty, not `.`, not `..`, and free of
separators.  Joining only such components onto the root cannot leave the
root's subtree. -/
def plainComp (w : List Char) : Prop :=
  w ≠ [] ∧ w ≠ ['.'] ∧ w ≠ ['.', '.'] ∧ '/' ∉ w

/-- `p` lies inside the `root` subtree: it is `root` extended by plain
child components only, possibly with the trailing slash the handler
re-appends. -/
def InRoot (root p : List Char) : Prop :=
  ∃ ws : List (List Char), (∀ w ∈ ws, plainComp w) ∧
    (p = ws.foldl posixJoinL root ∨ p = ws.foldl posixJoinL root ++ ['/'])

/-- The components a request path contributes below the root: query and
fragment dropped, percent-decoded, normalized, split on `/`, with every
empty, `.` and `..` component discarded. -/
def reqWords (path : List Char) : List (List Char) :=
  let p1 := (splitOnChar '?' path).headD []
  let p2 := (splitOnChar '#' p1).headD []
  (splitOnChar '/' (normpath (unquote p2))).filter
    (fun w => decide (w ≠ [] ∧ w ≠ ['.'] ∧ w ≠ ['.', '.']))

/-- Whether the (right-stripped) request path ends in a slash, which the
base class re-appends after joining. -/
def hasTrailingSlash (path : List Char) : Bool :=
  let p1 := (splitOnChar '?' path).headD []
  let p2 := (splitOnChar '#' p1).headD []
  isPrefixL ['/'] (rstripL p2).reverse

/-- `SimpleHTTPRequestHandler.translate_path` (modelled from the spec, see
the section comment): the filesystem path a request path is served
from — the surviving components joined onto the serving directory. -/
def translate_pathL (root path : List Char) : List Char :=
  let fspath := (reqWords path).foldl posixJoinL root
  if hasTrailingSlash path then fspath ++ ['/'] else fspath

/-- Modelled from the spec: `SimpleHTTPRequestHandler.do_GET`/`send_head`
restricted to regular files — the request path is translated onto the
serving directory; a file found there is served with `200` and its
contents; an absent file yields `404`.  Directory listings, redirects
and the unreadable-file `403` case are outside this model. -/
def do_GET (fs : List Char → Option (List Char)) (root path : List Char) :
    Nat × Option (List Char) :=
  match fs (translate_pathL root path) with
  | some content => (200, some content)
  | none => (404, none)

/-- Naive POSIX resolution of a request path against the root: concatenate
and normalize, honouring `..` components.  This is the reading under
which a request path such as `/../../etc/passwd` "resolves outside the
configured root directory". -/
def naive_resolve (root path : List Char) : List Char :=
  normpath (root ++ path)

/-! ## Helper lemmas -/

theorem isPrefixL_ne_head {a b : Char} (as bs l : List Char) (hne : a ≠ b)
    (ha : isPrefixL (a :: as) l = true) : isPrefixL (b :: bs) l = false := by
  cases l with
  | nil => simp [isPrefixL] at ha
  | cons c cs =>
      simp [isPrefixL, Bool.and_eq_true, beq_iff_eq] at ha ⊢
      intro hb
      exact absurd (ha.1.trans hb.symm) hne

theorem isPrefixL_ne_second {a b c : Char} (as bs l : List Char) (hne : b ≠ c)
    (ha : isPrefixL (a :: b :: as) l = true) :
    isPrefixL (a :: c :: bs) l = false := by
  cases l with
  | nil => simp [isPrefixL] at ha
  | cons x xs =>
      cases xs with
      | nil => simp [isPrefixL, Bool.and_eq_true] at ha
      | cons y ys =>
          simp [isPrefixL, Bool.and_eq_true, beq_iff_eq] at ha ⊢
          intro _ hc
          exact absurd (ha.2.1.trans hc.symm) hne

theorem splitOnChar_no_sep (sep : Char) (cs : List Char) :
    ∀ p ∈ splitOnChar sep cs, sep ∉ p := by
  induction cs with
  | nil =>
      intro p hp
      simp only [splitOnChar, List.mem_singleton] at hp
      simp [hp]
  | cons c cs ih =>
      intro p hp
      simp only [splitOnChar] at hp
      by_cases h : c = sep
      · rw [if_pos h] at hp
        rcases List.mem_cons.mp hp with h1 | h1
        · simp [h1]
        · exact ih p h1
      · rw [if_neg h] at hp
        rcases hr : splitOnChar sep cs with _ | ⟨q, qs⟩
        · rw [hr] at hp
          simp only [List.mem_singleton] at hp
          subst hp
          intro hmem
          rcases List.mem_singleton.mp hmem with h2
          exact h h2.symm
        · rw [hr] at hp
          rcases List.mem_cons.mp hp with h1 | h1
          · subst h1
            intro hmem
            rcases List.mem_cons.mp hmem with h2 | h2
            · exact h h2.symm
            · exact ih q (by rw [hr]; exact List.mem_cons_self q qs) h2
          · exact ih p (by rw [hr]; exact List.mem_cons_of_mem q h1)

theorem reqWords_plain (path : List Char) :
    ∀ w ∈ reqWords path, plainComp w := by
  intro w hw
  unfold reqWords at hw
  rw [List.mem_filter] at hw
  obtain ⟨hmem, hpred⟩ := hw
  rw [decide_eq_true_eq] at hpred
  exact ⟨hpred.1, hpred.2.1, hpred.2.2, splitOnChar_no_sep '/' _ w hmem⟩

theorem isPrefixL_slash_false {w : List Char} (h : '/' ∉ w) :
    isPrefixL ['/'] w = false := by
  cases w with
  | nil => rfl
  | cons c cs =>
      have hc : ('/' : Char) ≠ c := fun hh => h (by rw [hh]; exact List.mem_cons_self c cs)
      simp [isPrefixL, hc]

theorem posixJoinL_append (a w : List Char) (h : '/' ∉ w) :
    ∃ s, posixJoinL a w = a ++ s := by
  unfold posixJoinL
  rw [isPrefixL_slash_false h]
  by_cases ha : (a.isEmpty || (a.getLast? == some '/')) = true
  · rw [if_neg (by simp), if_pos ha]
    exact ⟨w, rfl⟩
  · rw [if_neg (by simp), if_neg ha]
    exact ⟨'/' :: w, rfl⟩

theorem foldl_posixJoinL_append :
    ∀ (ws : List (List Char)) (a : List Char), (∀ w ∈ ws, '/' ∉ w) →
      ∃ t, ws.foldl posixJoinL a = a ++ t
  | [], a, _ => ⟨[], by simp⟩
  | w :: ws, a, h => by
      obtain ⟨s, hs⟩ := posixJoinL_append a w (h w (List.mem_cons_self w ws))
      obtain ⟨t, ht⟩ := foldl_posixJoinL_append ws (posixJoinL a w)
        (fun v hv => h v (List.mem_cons_of_mem w hv))
      exact ⟨s ++ t, by rw [List.foldl_cons, ht, hs, List.append_assoc]⟩

/-! ## Concrete evaluations

Small sanity checks that the embedded functions behave as the source does
on concrete inputs. -/

example : pyInt "9090" = some 9090 := by decide
example : pyInt "abc" = none := by decide
example : pyInt " -42 " = some (-42) := by decide
example : pyInt "1_000" = some 1000 := by decide
example : pyInt "1__0" = none := by decide
example : pyInt "_1" = none := by decide
example : pyInt "1_" = none := by decide
example : parseArgs "/cwd" [] = Except.ok ⟨8000, "/cwd"⟩ := by rfl
example : parseArgs "/cwd" ["9090"] = Except.ok ⟨9090, "/cwd"⟩ := by rfl
example : parseArgs "/cwd" ["game"] = Except.ok ⟨8000, "game"⟩ := by rfl
example : parseArgs "/cwd" ["game", "9090"] = Except.ok ⟨9090, "game"⟩ := by rfl
example : parseArgs "/cwd" ["game", "x"] = Except.error PyExc.valueError := by rfl
example : parseArgs "/cwd" ["7", "ignored"] = Except.ok ⟨7, "/cwd"⟩ := by rfl
example : endswith "index.js" ".js" = true := by decide
example : endswith "styles.css" ".css" = true := by decide
example : endswith "styles.css" ".js" = false := by decide
example : guess_type (fun _ => none) "index.html" = "text/html" := by rfl
example : guess_type (fun _ => none) "data.bin" = "application/octet-stream" := by rfl
example : guess_type (fun _ => some "image/png") "a.png" = "image/png" := by rfl
example : normpath "/../../etc/passwd".data = "/etc/passwd".data := by decide
example : normpath "a/b/../c".data = "a/c".data := by decide
example : normpath "".data = ['.'] := by decide
example : normpath "//a".data = "//a".data := by decide
example : translate_pathL "/srv/app".data "/../../etc/passwd".data =
    "/srv/app/etc/passwd".data := by decide
example : translate_pathL "/srv/app".data "/index.html?q=1".data =
    "/srv/app/index.html".data := by decide
example : translate_pathL "/srv/app".data "/%2e%2e/x".data =
    "/srv/app/x".data := by decide
example : translate_pathL "/srv/app".data "/sub/".data =
    "/srv/app/sub/".data := by decide
example : naive_resolve "/srv/app".data "/../../etc/passwd".data =
    "/etc/passwd".data := by decide

/-! ## Claim theorems -/

/-- Claim C1, counterexample to the claim as stated.  The request path
`/../../etc/passwd` resolves outside the root `/srv/app` under POSIX
resolution (its resolution is not an extension of the root), yet when the
root happens to contain a file `etc/passwd` the server responds `200`,
not `403` or `404`: the inherited resolution clamps the path into the
root and serves the in-root file. -/
theorem traversal_status_counterexample :
    (∀ t : List Char,
      naive_resolve "/srv/app".data "/../../etc/passwd".data ≠
        "/srv/app".data ++ t) ∧
    (do_GET
        (fun q => if q = "/srv/app/etc/passwd".data then
          some "root:x:0:0".data else none)
        "/srv/app".data "/../../etc/passwd".data).1 = 200 ∧
    (do_GET
        (fun q => if q = "/srv/app/etc/passwd".data then
          some "root:x:0:0".data else none)
        "/srv/app".data "/../../etc/passwd".data).1 ≠ 403 ∧
    (do_GET
        (fun q => if q = "/srv/app/etc/passwd".data then
          some "root:x:0:0".data else none)
        "/srv/app".data "/../../etc/passwd".data).1 ≠ 404 := by
  refine ⟨?_, by decide, by decide, by decide⟩
  intro t h
  have h1 : (naive_resolve "/srv/app".data "/../../etc/passwd".data)[1]? =
      ("/srv/app".data ++ t)[1]? := by rw [h]
  rw [List.getElem?_append_left (by decide)] at h1
  exact absurd h1 (by decide)

/-- Claim C1 (amended): for every request path — in particular every path
that would resolve outside the configured root — the server never
returns content from outside the root: the translated filesystem path is
always the root extended by plain child components (so it stays inside
the root's subtree, and textually extends the root), and any content
served comes from such an in-root path.  The response status, however,
is whatever the clamped in-root path yields (`404` when absent, `200`
when present), not necessarily `403`/`404`. -/
theorem translate_path_stays_in_root (root path : List Char) :
    InRoot root (translate_pathL root path) ∧
    (∃ t, translate_pathL root path = root ++ t) ∧
    (∀ fs c, (do_GET fs root path).2 = some c →
      ∃ q, InRoot root q ∧ fs q = some c) := by
  have hplain := reqWords_plain path
  have hslash : ∀ w ∈ reqWords path, '/' ∉ w := fun w hw => (hplain w hw).2.2.2
  have hin : InRoot root (translate_pathL root path) := by
    refine ⟨reqWords path, hplain, ?_⟩
    unfold translate_pathL
    cases htr : hasTrailingSlash path <;> simp
  refine ⟨hin, ?_, ?_⟩
  · obtain ⟨t, ht⟩ := foldl_posixJoinL_append (reqWords path) root hslash
    unfold translate_pathL
    cases htr : hasTrailingSlash path
    · exact ⟨t, by simp [ht]⟩
    · exact ⟨t ++ ['/'], by simp [ht]⟩
  · intro fs c hc
    refine ⟨translate_pathL root path, hin, ?_⟩
    unfold do_GET at hc
    rcases hfs : fs (translate_pathL root path) with _ | content
    · rw [hfs] at hc
      simp at hc
    · rw [hfs] at hc
      simp only [Option.some.injEq] at hc
      rw [← hc]

/-- Claim C1, witness: a concrete request served from inside the root. -/
theorem translate_path_stays_in_root_witness :
    ∃ q, InRoot "/srv/app".data q ∧
      (fun p => if p = "/srv/app/index.html".data then
        some "<html>".data else none) q = some "<html>".data :=
  (translate_path_stays_in_root "/srv/app".data "/index.html".data).2.2
    (fun p => if p = "/srv/app/index.html".data then
      some "<html>".data else none)
    "<html>".data (by decide)

/-- Claim C2: every response's header block carries the three CORS headers
with exactly the specified values, whatever headers the base protocol
implementation accumulated for the request path and status code. -/
theorem cors_headers_always_present
    (base : String → Nat → List (String × String)) (path : String)
    (status : Nat) :
    ("Access-Control-Allow-Origin", "*") ∈ responseHeaders base path status ∧
    ("Access-Control-Allow-Methods", "GET, POST, OPTIONS") ∈
      responseHeaders base path status ∧
    ("Access-Control-Allow-Headers", "*") ∈ responseHeaders base path status := by
  simp [responseHeaders, end_headers, send_header]

/-- Claim C3: the `Content-Type` is `application/javascript` for paths
ending in `.js`, `text/css` for `.css`, `text/html` for `.html`; for any
other path it is the platform's standard MIME guess, which falls back to
`application/octet-stream` when the platform table knows no type. -/
theorem guess_type_mime_resolution (mimeTable : String → Option String)
    (path : String) :
    (endswith path ".js" = true →
      guess_type mimeTable path = "application/javascript") ∧
    (endswith path ".css" = true → guess_type mimeTable path = "text/css") ∧
    (endswith path ".html" = true → guess_type mimeTable path = "text/html") ∧
    (endswith path ".js" = false → endswith path ".css" = false →
      endswith path ".html" = false →
      guess_type mimeTable path = base_guess_type mimeTable path ∧
      (mimeTable path = none →
        guess_type mimeTable path = "application/octet-stream")) := by
  refine ⟨?_, ?_, ?_, ?_⟩
  · intro h
    simp [guess_type, h]
  · intro h
    have hjs : endswith path ".js" = false := by
      unfold endswith at h ⊢
      have e1 : (".css".data.reverse) = ['s', 's', 'c', '.'] := by decide
      have e2 : (".js".data.reverse) = ['s', 'j', '.'] := by decide
      rw [e1] at h
      rw [e2]
      exact isPrefixL_ne_second _ _ _ (by decide) h
    simp [guess_type, hjs, h]
  · intro h
    have e0 : (".html".data.reverse) = ['l', 'm', 't', 'h', '.'] := by decide
    have hjs : endswith path ".js" = false := by
      unfold endswith at h ⊢
      have e2 : (".js".data.reverse) = ['s', 'j', '.'] := by decide
      rw [e0] at h
      rw [e2]
      exact isPrefixL_ne_head _ _ _ (by decide) h
    have hcss : endswith path ".css" = false := by
      unfold endswith at h ⊢
      have e1 : (".css".data.reverse) = ['s', 's', 'c', '.'] := by decide
      rw [e0] at h
      rw [e1]
      exact isPrefixL_ne_head _ _ _ (by decide) h
    simp [guess_type, hjs, hcss, h]
  · intro h1 h2 h3
    refine ⟨by simp [guess_type, h1, h2, h3], ?_⟩
    intro hnone
    simp [guess_type, h1, h2, h3, base_guess_type, hnone]

/-- Claim C3, witness: the three override extensions and the fallback at
concrete file names. -/
theorem guess_type_mime_resolution_witness :
    guess_type (fun _ => none) "index.js" = "application/javascript" :=
  (guess_type_mime_resolution (fun _ => none) "index.js").1 (by decide)

/-- Claim C4: with no arguments the port is `8000` and the directory the
current working directory; a single integer argument is the port; a
single non-integer argument is the directory with port `8000`; a
non-integer first argument followed by an integer second argument gives
directory and port respectively. -/
theorem launcher_argument_parsing (cwd a b : String) (p : Int) :
    parseArgs cwd [] = Except.ok ⟨8000, cwd⟩ ∧
    (pyInt a = some p → parseArgs cwd [a] = Except.ok ⟨p, cwd⟩) ∧
    (pyInt a = none → parseArgs cwd [a] = Except.ok ⟨8000, a⟩) ∧
    (pyInt a = none → pyInt b = some p →
      parseArgs cwd [a, b] = Except.ok ⟨p, a⟩) := by
  refine ⟨rfl, ?_, ?_, ?_⟩
  · intro h
    simp [parseArgs, h]
  · intro h
    simp [parseArgs, h]
  · intro h1 h2
    simp [parseArgs, h1, h2]

/-- Claim C4, witness: the four invocation shapes at concrete arguments. -/
theorem launcher_argument_parsing_witness :
    parseArgs "/cwd" ["game", "9090"] = Except.ok ⟨9090, "game"⟩ :=
  (launcher_argument_parsing "/cwd" "game" "9090" 9090).2.2.2 (by decide)
    (by decide)

/-- Claim C5: `start` performs the `chdir` strictly before the bind
(whenever a bind event occurs the trace starts with the `chdir`); a
missing directory fails with `directoryError` before anything else, a
busy or unauthorized port fails with `bindError` after the `chdir`; and
in either fatal case the process run ends with a nonzero exit status. -/
theorem start_chdir_before_bind_and_fatal_exit (ctx : Ctx) (h : PyExc)
    (port : Int) (dir : String) :
    (∀ p, Ev.bind p ∈ (GameServer.start ctx h port dir).1 →
      ((GameServer.start ctx h port dir).1).head? = some (Ev.chdir dir)) ∧
    (ctx.dirExists dir = false →
      GameServer.start ctx h port dir = ([], some PyExc.directoryError)) ∧
    (ctx.dirExists dir = true → ctx.portFree port = false →
      GameServer.start ctx h port dir =
        ([Ev.chdir dir], some PyExc.bindError)) ∧
    (∀ cwd args cfg, parseArgs cwd args = Except.ok cfg →
      (ctx.dirExists (resolveDir ctx.home cfg.directory) = false ∨
        (ctx.dirExists (resolveDir ctx.home cfg.directory) = true ∧
          ctx.portFree cfg.port = false)) →
      ∃ c, (run_main ctx cwd args).2 = Outcome.exited c ∧ c ≠ 0) := by
  refine ⟨?_, ?_, ?_, ?_⟩
  · intro p hp
    rcases hde : ctx.dirExists dir with _ | _
    · simp [GameServer.start, hde] at hp
    · rcases hpf : ctx.portFree port with _ | _
      · simp [GameServer.start, hde, hpf] at hp
      · rcases hint : ctx.interrupt with _ | _
        · simp [GameServer.start, hde, hpf, hint]
        · cases h <;> simp [GameServer.start, hde, hpf, hint]
  · intro hde
    simp [GameServer.start, hde]
  · intro hde hpf
    simp [GameServer.start, hde, hpf]
  · intro cwd args cfg hparse hfail
    refine ⟨1, ?_, by decide⟩
    unfold run_main
    rw [hparse]
    rcases hfail with hde | ⟨hde, hpf⟩
    · simp [GameServer.start, hde]
    · simp [GameServer.start, hde, hpf]

/-- Claim C5, witness: a missing directory makes the run exit nonzero. -/
theorem start_chdir_before_bind_and_fatal_exit_witness :
    ∃ c, (run_main
      ⟨fun _ => false, fun _ => true, RunOutcome.raised, RunOutcome.raised,
        false, "/h"⟩ "/cwd" []).2 = Outcome.exited c ∧ c ≠ 0 :=
  (start_chdir_before_bind_and_fatal_exit
      ⟨fun _ => false, fun _ => true, RunOutcome.raised, RunOutcome.raised,
        false, "/h"⟩
      PyExc.keyboardInterrupt 8000 "/cwd").2.2.2 "/cwd" [] ⟨8000, "/cwd"⟩
    (by rfl) (Or.inl rfl)

/-- Claim C6, counterexample to the claim as stated.  When the first
launcher invocation runs but exits nonzero (Chrome not installed, so the
`open -a` command fails), the strategy did not succeed, yet no further
strategy is attempted — even though the second one would have succeeded
— and the platform-default opener is never reached: with `check=False`
the chain advances only on an exception, not on failure. -/
theorem browser_chain_counterexample :
    RunOutcome.succeeded (RunOutcome.ran 1) = false ∧
    RunOutcome.succeeded (RunOutcome.ran 0) = true ∧
    open_browser (RunOutcome.ran 1) (RunOutcome.ran 0) = [LaunchEv.tryChrome] ∧
    LaunchEv.tryFirefox ∉ open_browser (RunOutcome.ran 1) (RunOutcome.ran 0) ∧
    LaunchEv.tryDefault ∉ open_browser (RunOutcome.ran 1) (RunOutcome.ran 0) := by
  refine ⟨by decide, by decide, rfl, by decide, by decide⟩

/-- Claim C6 (amended): the launch strategies form an ordered chain that
always starts with the first strategy and advances only when the
previous invocation raised an exception (exit codes are ignored, because
`check=False`); the platform-default opener is reached exactly when both
subprocess invocations raised; and no combination of browser-launch
outcomes changes the outcome of server startup. -/
theorem browser_chain_exception_fallback (c f : RunOutcome) :
    (open_browser c f).head? = some LaunchEv.tryChrome ∧
    (LaunchEv.tryFirefox ∈ open_browser c f ↔ c = RunOutcome.raised) ∧
    (LaunchEv.tryDefault ∈ open_browser c f ↔
      c = RunOutcome.raised ∧ f = RunOutcome.raised) ∧
    (∀ (ctx : Ctx) (h : PyExc) (port : Int) (dir : String)
        (c' f' : RunOutcome),
      (GameServer.start { ctx with chrome := c, firefox := f } h port dir).2 =
        (GameServer.start { ctx with chrome := c', firefox := f' } h port
          dir).2) := by
  refine ⟨?_, ?_, ?_, ?_⟩
  · cases c <;> cases f <;> simp [open_browser]
  · cases c <;> cases f <;> simp [open_browser]
  · cases c <;> cases f <;> simp [open_browser]
  · intro ctx h port dir c' f'
    rcases hde : ctx.dirExists dir with _ | _ <;>
      rcases hpf : ctx.portFree port with _ | _ <;>
        rcases hint : ctx.interrupt with _ | _ <;>
          cases h <;> simp [GameServer.start, hde, hpf, hint]

/-- Claim C7: `stop` on a server that never started is a no-op, `stop` is
idempotent, and `stop` on a running server requests shutdown of the
accept loop and closes the listening socket. -/
theorem stop_idempotent_noop (s : GameServerSt) (p : Int) (d : String)
    (h : Httpd) :
    GameServer.stop ⟨p, d, none⟩ = ⟨p, d, none⟩ ∧
    GameServer.stop (GameServer.stop s) = GameServer.stop s ∧
    (GameServer.stop ⟨p, d, some h⟩).httpd = some ⟨true, true⟩ := by
  refine ⟨rfl, ?_, rfl⟩
  rcases s with ⟨sp, sd, _ | hh⟩ <;> rfl

/-- Claim C8: with the launcher's interrupt handler registered, an
interrupt delivered while the server is serving makes the process exit
in order with status `0` (the handler's `sys.exit(0)` raises
`SystemExit 0`, which the `except KeyboardInterrupt` at line 65 does not
swallow). -/
theorem interrupt_exits_zero (ctx : Ctx) (cwd : String) (args : List String)
    (cfg : Config) (hint : ctx.interrupt = true)
    (hparse : parseArgs cwd args = Except.ok cfg)
    (hde : ctx.dirExists (resolveDir ctx.home cfg.directory) = true)
    (hpf : ctx.portFree cfg.port = true) :
    (run_main ctx cwd args).2 = Outcome.exited 0 := by
  unfold run_main
  rw [hparse]
  simp [GameServer.start, hde, hpf, hint, signal_handler]

/-- Claim C8, witness: an interrupted run at a concrete configuration. -/
theorem interrupt_exits_zero_witness :
    (run_main
      ⟨fun _ => true, fun _ => true, RunOutcome.raised, RunOutcome.raised,
        true, "/h"⟩ "/cwd" []).2 = Outcome.exited 0 :=
  interrupt_exits_zero
    ⟨fun _ => true, fun _ => true, RunOutcome.raised, RunOutcome.raised,
      true, "/h"⟩ "/cwd" [] ⟨8000, "/cwd"⟩ rfl (by rfl) rfl rfl

/-- Claim C9: when the first positional argument parses as an integer, any
second positional argument is ignored — the port is the first argument
and the directory stays the current working directory. -/
theorem second_arg_ignored_when_first_is_port (cwd a b : String)
    (rest : List String) (p : Int) (h : pyInt a = some p) :
    parseArgs cwd (a :: b :: rest) = Except.ok ⟨p, cwd⟩ := by
  simp [parseArgs, h]

/-- Claim C9, witness: `PORT 9090`, second argument ignored. -/
theorem second_arg_ignored_when_first_is_port_witness :
    parseArgs "/cwd" ["9090", "ignored"] = Except.ok ⟨9090, "/cwd"⟩ :=
  second_arg_ignored_when_first_is_port "/cwd" "9090" "ignored" [] 9090
    (by decide)

/-- Claim C10: two non-integer positional arguments raise the uncaught
`ValueError` from `int(sys.argv[2])` before any server is constructed:
the process exits with status `1` (nonzero) and the event trace is empty
— in particular no socket is ever bound. -/
theorem two_nonint_args_valueerror (ctx : Ctx) (cwd a b : String)
    (rest : List String) (h1 : pyInt a = none) (h2 : pyInt b = none) :
    parseArgs cwd (a :: b :: rest) = Except.error PyExc.valueError ∧
    run_main ctx cwd (a :: b :: rest) = ([], Outcome.exited 1) ∧
    ∀ p, Ev.bind p ∉ (run_main ctx cwd (a :: b :: rest)).1 := by
  have hp : parseArgs cwd (a :: b :: rest) = Except.error PyExc.valueError := by
    simp [parseArgs, h1, h2]
  refine ⟨hp, ?_, ?_⟩
  · unfold run_main
    rw [hp]
  · intro p
    unfold run_main
    rw [hp]
    simp

/-- Claim C10, witness: two non-numeric arguments at a concrete
invocation. -/
theorem two_nonint_args_valueerror_witness :
    parseArgs "/cwd" ["gameA", "gameB"] = Except.error PyExc.valueError ∧
    run_main
        ⟨fun _ => true, fun _ => true, RunOutcome.raised, RunOutcome.raised,
          false, "/h"⟩ "/cwd" ["gameA", "gameB"] = ([], Outcome.exited 1) ∧
    ∀ p, Ev.bind p ∉ (run_main
        ⟨fun _ => true, fun _ => true, RunOutcome.raised, RunOutcome.raised,
          false, "/h"⟩ "/cwd" ["gameA", "gameB"]).1 :=
  two_nonint_args_valueerror
    ⟨fun _ => true, fun _ => true, RunOutcome.raised, RunOutcome.raised,
      false, "/h"⟩ "/cwd" "gameA" "gameB" [] (by decide) (by decide)

end Server
